import Mathlib

/-!
Verification development for the snow-itom-auditor repository.

The Python source is shallowly embedded in Lean:
* Pydantic models (`models.py`) become Lean structures; the `Literal` string
  enumerations become inductive types.
* Python floats are modelled as rationals (`ℚ`); `round(x, 2)` is modelled by
  `round2` below (round to the nearest multiple of 1/100 — Python's
  round-half-even differs only at exact midpoints, which are never reached in
  the statements proved here).
* The ServiceNow REST client is modelled as a function from query parameters to
  `Except String (List Record)`; a raised exception is an `Except.error`
  carrying the exception message.
* `datetime.now(UTC)` only ever feeds formatted date strings into query
  strings; those strings are modelled by the fixed constants below, since no
  verified property depends on the actual date.
* Storage (`AuditStorage`) only loads/saves entities around the pure
  transformation each tool performs; the embedded tools take the loaded entity
  as an argument and return the transformed entity, eliding the load/save.
-/

/-- `CheckSeverity = Literal["critical", "high", "medium", "low"]` (models.py). -/
inductive CheckSeverity where
  | critical
  | high
  | medium
  | low
deriving DecidableEq, Repr

/-- `CheckStatus = Literal["pass", "fail", "skip", "error"]` (models.py). -/
inductive CheckStatus where
  | pass
  | fail
  | skip
  | error
deriving DecidableEq, Repr

/-- `AuditType = Literal["cmdb", "discovery", "asset", "full"]` (models.py). -/
inductive AuditType where
  | cmdb
  | discovery
  | asset
  | full
deriving DecidableEq, Repr

/-- `RemediationItemStatus = Literal["pending", "in_progress", "done", "skipped"]` (models.py). -/
inductive RemediationItemStatus where
  | pending
  | in_progress
  | done
  | skipped
deriving DecidableEq, Repr

/-- `AuditCheck` (models.py): a single compliance check result. -/
structure AuditCheck where
  name : String
  description : String
  severity : CheckSeverity
  status : CheckStatus
  details : String := ""
  affected_count : Nat := 0
  affected_sys_ids : List String := []
deriving DecidableEq, Repr

/-- `ComplianceScore` (models.py): calculated compliance score with
severity-tier breakdowns.  Floats are modelled as rationals. -/
structure ComplianceScore where
  overall_score : ℚ
  critical_score : ℚ
  high_score : ℚ
  medium_score : ℚ
  low_score : ℚ
  passed_count : Nat := 0
  failed_count : Nat := 0
  total_count : Nat := 0
deriving DecidableEq, Repr

/-- `AuditResult` (models.py).  The `id` (uuid4) and the two timestamps are not
modelled: no verified property depends on them. -/
structure AuditResult where
  audit_type : AuditType
  checks : List AuditCheck := []
  score : Option ComplianceScore := none
  status : String := "running"
  summary : String := ""
deriving DecidableEq, Repr

/-- Models Python `round(x, 2)`: round to the nearest multiple of 1/100. -/
def round2 (q : ℚ) : ℚ := ((round (q * 100) : ℤ) : ℚ) / 100

/-- `ComplianceScorer.SEVERITY_WEIGHTS` (scoring.py), in dict-insertion order. -/
def SEVERITY_WEIGHTS : List (CheckSeverity × ℚ) :=
  [(CheckSeverity.critical, 4/10), (CheckSeverity.high, 3/10),
   (CheckSeverity.medium, 2/10), (CheckSeverity.low, 1/10)]

/-- The per-tier filter in `calculate_score` (scoring.py line 43):
`[c for c in checks if c.severity == severity and c.status in scoreable_statuses]`
with `scoreable_statuses = {"pass", "fail"}`. -/
def tier_checks (checks : List AuditCheck) (severity : CheckSeverity) : List AuditCheck :=
  checks.filter fun c =>
    c.severity == severity && (c.status == CheckStatus.pass || c.status == CheckStatus.fail)

/-- `passed = sum(1 for c in tier_checks if c.status == "pass")` (scoring.py line 47). -/
def tier_passed (checks : List AuditCheck) (severity : CheckSeverity) : Nat :=
  (tier_checks checks severity).countP fun c => c.status == CheckStatus.pass

/-- The per-tier score of `calculate_score` (scoring.py lines 44-49): 100 for an
empty tier, else `(passed / len(tier_checks)) * 100.0`. -/
def tier_score (checks : List AuditCheck) (severity : CheckSeverity) : ℚ :=
  if tier_checks checks severity = [] then 100
  else ((tier_passed checks severity : ℚ) / ((tier_checks checks severity).length : ℚ)) * 100

/-- `weight_sum` accumulated over `SEVERITY_WEIGHTS` (scoring.py line 59). -/
def weight_sum : ℚ := (SEVERITY_WEIGHTS.map Prod.snd).sum

/-- `overall` accumulated over `SEVERITY_WEIGHTS` (scoring.py line 58):
`overall += tier_scores[severity] * weight`. -/
def weighted_overall (checks : List AuditCheck) : ℚ :=
  (SEVERITY_WEIGHTS.map fun p => tier_score checks p.1 * p.2).sum

/-- `ComplianceScorer.calculate_score` (scoring.py).  The totals accumulate the
per-tier counts over `SEVERITY_WEIGHTS`, skipping empty tiers implicitly (an
empty tier contributes zero to every count). -/
def calculate_score (checks : List AuditCheck) : ComplianceScore :=
  let total_passed := (SEVERITY_WEIGHTS.map fun p => tier_passed checks p.1).sum
  let total_failed :=
    (SEVERITY_WEIGHTS.map fun p => (tier_checks checks p.1).length - tier_passed checks p.1).sum
  let total_count := (SEVERITY_WEIGHTS.map fun p => (tier_checks checks p.1).length).sum
  let overall := weighted_overall checks
  let overall := if weight_sum > 0 then overall / weight_sum else overall
  { overall_score := round2 overall
    critical_score := round2 (tier_score checks CheckSeverity.critical)
    high_score := round2 (tier_score checks CheckSeverity.high)
    medium_score := round2 (tier_score checks CheckSeverity.medium)
    low_score := round2 (tier_score checks CheckSeverity.low)
    passed_count := total_passed
    failed_count := total_failed
    total_count := total_count }

/-- A check function as the audit engine sees it (`engine.py`): a Python
callable with a `__name__` and a body that either returns an `AuditCheck` or
raises (modelled as `Except.error` with the exception message). -/
structure CheckFn where
  name : String
  run : Except String AuditCheck

/-- `AuditEngine.run_check` (engine.py lines 30-53): invoke the check function;
on an exception synthesize a `status=error`, `severity=medium` outcome.  The
`details` field holds the traceback in Python; here it holds the message. -/
def run_check (check_fn : CheckFn) : AuditCheck :=
  match check_fn.run with
  | Except.ok c => c
  | Except.error exc =>
      { name := check_fn.name
        description := s!"Check failed with error: {exc}"
        severity := CheckSeverity.medium
        status := CheckStatus.error
        details := exc }

/-- `AuditEngine.run_audit` (engine.py lines 55-100). -/
def run_audit (audit_type : AuditType) (check_fns : List CheckFn) : AuditResult :=
  let checks := check_fns.map run_check
  let passed := checks.countP fun c => c.status == CheckStatus.pass
  let failed := checks.countP fun c => c.status == CheckStatus.fail
  let errors := checks.countP fun c => c.status == CheckStatus.error
  let n := checks.length
  let status :=
    if checks.any (fun c => c.status == CheckStatus.error) then "completed_with_errors"
    else if failed > 0 then "completed"
    else "passed"
  { audit_type := audit_type
    checks := checks
    score := some (calculate_score checks)
    status := status
    summary := s!"{passed} passed, {failed} failed, {errors} errors out of {n} checks" }

/-- A ServiceNow record: a mapping from field names to scalar values, all
modelled as strings (client.py returns JSON objects of scalars). -/
abbrev SnRecord := List (String × String)

/-- Python `record.get(key, "")`. -/
def rget (r : SnRecord) (k : String) : String :=
  match r.lookup k with
  | some v => v
  | none => ""

/-- Python `int(record.get(key, 0) or 0)` (assets.py lines 29-30): a missing
key or a falsy value gives 0; otherwise the string is parsed, and a parse
failure is a `ValueError` (modelled as `none`). -/
def int_or_zero (r : SnRecord) (k : String) : Option Int :=
  match r.lookup k with
  | none => some 0
  | some v => if v = "" then some 0 else v.toInt?

/-- The data-source client (`client.py`), modelled at its interface:
`get_records(table, fields, query, limit)` returns a list of records or raises
(an `Except.error` with the exception message). -/
structure ServiceNowClient where
  get_records : String → List String → Option String → Nat → Except String (List SnRecord)

/-- Models `(datetime.now(UTC) - timedelta(days=90)).strftime("%Y-%m-%d")`
(cmdb.py line 93-94).  The concrete value is irrelevant to every verified
property: it only ever appears inside query strings. -/
def cutoff_90d : String := "2025-07-14"

/-- Models `(datetime.now(UTC) - timedelta(days=7)).strftime("%Y-%m-%d")`
(discovery.py lines 20-21). -/
def cutoff_7d : String := "2025-10-05"

/-- Models `datetime.now(UTC).strftime("%Y-%m-%d")` (assets.py line 52). -/
def today_str : String := "2025-10-12"

/-- `_ORPHAN_RATE_THRESHOLD = 0.20` (cmdb.py line 31). -/
def ORPHAN_RATE_THRESHOLD : ℚ := 20/100

/-- `_STALE_RATE_THRESHOLD = 0.10` (cmdb.py line 32). -/
def STALE_RATE_THRESHOLD : ℚ := 10/100

/-- `_DUPLICATE_RATE_THRESHOLD = 0.05` (cmdb.py line 33). -/
def DUPLICATE_RATE_THRESHOLD : ℚ := 5/100

/-- `_MISSING_FIELD_THRESHOLD = 0.15` (cmdb.py line 34). -/
def MISSING_FIELD_THRESHOLD : ℚ := 15/100

/-- `check_orphan_compliance` (cmdb.py lines 37-85). -/
def check_orphan_compliance (client : ServiceNowClient) : Except String AuditCheck := do
  let cis ← client.get_records "cmdb_ci" ["sys_id", "name", "sys_class_name"] none 100
  if cis.isEmpty then
    return { name := "cmdb_orphan_compliance"
             description := "Orphan CI rate below policy threshold"
             severity := CheckSeverity.medium
             status := CheckStatus.pass
             details := "No CIs found to evaluate" }
  let orphan_ids ← cis.foldlM
    (fun acc ci => do
      let sys_id := rget ci "sys_id"
      if sys_id = "" then
        return acc
      let rels ← client.get_records "cmdb_rel_ci" ["sys_id"]
        (some ("parent=" ++ sys_id ++ "^ORchild=" ++ sys_id)) 1
      if rels.isEmpty then return acc ++ [sys_id] else return acc)
    ([] : List String)
  let orphan_rate : ℚ := if cis.isEmpty then 0 else (orphan_ids.length : ℚ) / (cis.length : ℚ)
  let n := orphan_ids.length
  let m := cis.length
  return { name := "cmdb_orphan_compliance"
           description := "Orphan CI rate below policy threshold"
           severity := CheckSeverity.medium
           status := if orphan_rate > ORPHAN_RATE_THRESHOLD then CheckStatus.fail else CheckStatus.pass
           details := s!"{n} of {m} sampled CIs have no relationships"
           affected_count := orphan_ids.length
           affected_sys_ids := orphan_ids.take 50 }

/-- `check_stale_compliance` (cmdb.py lines 88-120). -/
def check_stale_compliance (client : ServiceNowClient) : Except String AuditCheck := do
  let total_cis ← client.get_records "cmdb_ci" ["sys_id"] none 1000
  let stale_cis ← client.get_records "cmdb_ci" ["sys_id"]
    (some ("sys_updated_on<" ++ cutoff_90d)) 1000
  let total := total_cis.length
  let stale := stale_cis.length
  let stale_rate : ℚ := if total > 0 then (stale : ℚ) / (total : ℚ) else 0
  return { name := "cmdb_stale_compliance"
           description := "Stale CI rate below policy threshold"
           severity := CheckSeverity.high
           status := if stale_rate > STALE_RATE_THRESHOLD then CheckStatus.fail else CheckStatus.pass
           details := s!"{stale} of {total} CIs not updated since cutoff"
           affected_count := stale
           affected_sys_ids := (stale_cis.take 50).map fun r => rget r "sys_id" }

/-- The duplicate-group map of `check_duplicate_compliance` (cmdb.py lines
132-137): group sampled CIs by `name|class`, skipping empty keys. -/
def duplicate_groups (cis : List SnRecord) : List (String × List String) :=
  cis.foldl
    (fun seen ci =>
      let key := rget ci "name" ++ "|" ++ rget ci "sys_class_name"
      if key ≠ "" ∧ key ≠ "|" then
        match seen.lookup key with
        | some ids => seen.map fun p => if p.1 = key then (p.1, ids ++ [rget ci "sys_id"]) else p
        | none => seen ++ [(key, [rget ci "sys_id"])]
      else seen)
    ([] : List (String × List String))

/-- `check_duplicate_compliance` (cmdb.py lines 123-155). -/
def check_duplicate_compliance (client : ServiceNowClient) : Except String AuditCheck := do
  let cis ← client.get_records "cmdb_ci" ["sys_id", "name", "sys_class_name"]
    (some "ORDERBYname") 200
  let duplicates := (duplicate_groups cis).filter fun p => p.2.length > 1
  let total := cis.length
  let dup_rate : ℚ := if total > 0 then (duplicates.length : ℚ) / (total : ℚ) else 0
  let affected_ids := duplicates.flatMap Prod.snd
  let g := duplicates.length
  let a := affected_ids.length
  return { name := "cmdb_duplicate_compliance"
           description := "Duplicate CI group rate below policy threshold"
           severity := CheckSeverity.high
           status := if dup_rate > DUPLICATE_RATE_THRESHOLD then CheckStatus.fail else CheckStatus.pass
           details := s!"{g} duplicate groups across {a} CIs"
           affected_count := affected_ids.length
           affected_sys_ids := affected_ids.take 50 }

/-- `check_missing_field_compliance` (cmdb.py lines 158-185). -/
def check_missing_field_compliance (client : ServiceNowClient) : Except String AuditCheck := do
  let all_servers ← client.get_records "cmdb_ci_server" ["sys_id"] none 1000
  let missing_ip ← client.get_records "cmdb_ci_server" ["sys_id", "name", "ip_address"]
    (some "ip_addressISEMPTY") 1000
  let total := all_servers.length
  let missing := missing_ip.length
  let missing_rate : ℚ := if total > 0 then (missing : ℚ) / (total : ℚ) else 0
  let affected_ids := (missing_ip.filter fun r => rget r "sys_id" ≠ "").map fun r => rget r "sys_id"
  return { name := "cmdb_missing_field_compliance"
           description := "Server CI missing-IP rate below policy threshold"
           severity := CheckSeverity.critical
           status := if missing_rate > MISSING_FIELD_THRESHOLD then CheckStatus.fail else CheckStatus.pass
           details := s!"{missing} of {total} server CIs have no IP address"
           affected_count := missing
           affected_sys_ids := affected_ids.take 50 }

/-- `check_stale_schedules` (discovery.py lines 18-40). -/
def check_stale_schedules (client : ServiceNowClient) : Except String AuditCheck := do
  let stale ← client.get_records "discovery_schedule" ["sys_id", "name", "last_run_time"]
    (some ("last_run_time<" ++ cutoff_7d ++ "^active=true")) 100
  let affected_ids := (stale.filter fun r => rget r "sys_id" ≠ "").map fun r => rget r "sys_id"
  let n := stale.length
  return { name := "stale_discovery_schedules"
           description := "Detect discovery schedules not run in 7+ days"
           severity := CheckSeverity.high
           status := if stale.isEmpty then CheckStatus.pass else CheckStatus.fail
           details := s!"{n} active discovery schedules have not run since cutoff"
           affected_count := stale.length
           affected_sys_ids := affected_ids.take 50 }

/-- `check_pattern_coverage` (discovery.py lines 43-65).  Note that the
severity depends on the queried data: `"medium" if count > 0 else "high"`. -/
def check_pattern_coverage (client : ServiceNowClient) : Except String AuditCheck := do
  let patterns ← client.get_records "sa_pattern" ["sys_id", "name", "active"]
    (some "active=true") 100
  let count := patterns.length
  let threshold := 5
  return { name := "pattern_coverage"
           description := "Check active discovery pattern count"
           severity := if count > 0 then CheckSeverity.medium else CheckSeverity.high
           status := if count ≥ threshold then CheckStatus.pass else CheckStatus.fail
           details := s!"{count} active discovery patterns found (threshold: {threshold})"
           affected_count := count }

/-- `check_ci_reconciliation` (discovery.py lines 68-87). -/
def check_ci_reconciliation (client : ServiceNowClient) : Except String AuditCheck := do
  let unreconciled ← client.get_records "cmdb_ci" ["sys_id", "name", "discovery_source"]
    (some "discovery_sourceISEMPTY") 100
  let affected_ids := (unreconciled.filter fun r => rget r "sys_id" ≠ "").map fun r => rget r "sys_id"
  let n := unreconciled.length
  return { name := "ci_reconciliation"
           description := "Detect CIs with no discovery source"
           severity := CheckSeverity.medium
           status := if unreconciled.isEmpty then CheckStatus.pass else CheckStatus.fail
           details := s!"{n} CIs have no discovery_source set"
           affected_count := unreconciled.length
           affected_sys_ids := affected_ids.take 50 }

/-- `check_license_overallocation` (assets.py lines 18-47).  The
`try/except (ValueError, TypeError): continue` around the integer parsing is
modelled by skipping the record when parsing fails. -/
def check_license_overallocation (client : ServiceNowClient) : Except String AuditCheck := do
  let licenses ← client.get_records "alm_license"
    ["sys_id", "display_name", "license_count", "installed_count"] none 100
  let overallocated := licenses.foldl
    (fun acc lic =>
      match int_or_zero lic "installed_count", int_or_zero lic "license_count" with
      | some installed, some allowed =>
          if allowed > 0 ∧ installed > allowed then
            let sys_id := rget lic "sys_id"
            if sys_id ≠ "" then acc ++ [sys_id] else acc
          else acc
      | _, _ => acc)
    ([] : List String)
  let n := overallocated.length
  return { name := "license_overallocation"
           description := "Detect licenses exceeding allocated count"
           severity := CheckSeverity.critical
           status := if overallocated.isEmpty then CheckStatus.pass else CheckStatus.fail
           details := s!"{n} licenses are over-allocated"
           affected_count := overallocated.length
           affected_sys_ids := overallocated.take 50 }

/-- `check_expired_hardware` (assets.py lines 50-71). -/
def check_expired_hardware (client : ServiceNowClient) : Except String AuditCheck := do
  let expired ← client.get_records "alm_hardware" ["sys_id", "display_name", "end_of_life"]
    (some ("end_of_life<" ++ today_str ++ "^end_of_lifeISNOTEMPTY")) 100
  let affected_ids := (expired.filter fun r => rget r "sys_id" ≠ "").map fun r => rget r "sys_id"
  let n := expired.length
  return { name := "expired_hardware"
           description := "Detect hardware past end-of-life"
           severity := CheckSeverity.high
           status := if expired.isEmpty then CheckStatus.pass else CheckStatus.fail
           details := s!"{n} hardware assets have passed end-of-life"
           affected_count := expired.length
           affected_sys_ids := affected_ids.take 50 }

/-- `check_unassigned_assets` (assets.py lines 74-93). -/
def check_unassigned_assets (client : ServiceNowClient) : Except String AuditCheck := do
  let unassigned ← client.get_records "alm_asset" ["sys_id", "display_name", "install_status"]
    (some "assigned_toISEMPTY^install_status=1") 100
  let affected_ids := (unassigned.filter fun r => rget r "sys_id" ≠ "").map fun r => rget r "sys_id"
  let n := unassigned.length
  return { name := "unassigned_assets"
           description := "Detect active assets with no assigned user"
           severity := CheckSeverity.low
           status := if unassigned.isEmpty then CheckStatus.pass else CheckStatus.fail
           details := s!"{n} active assets have no assigned user"
           affected_count := unassigned.length
           affected_sys_ids := affected_ids.take 50 }

/-- One entry of `CHECK_REGISTRY` (remediation.py lines 32-73): the registered
check function (with its Python `__name__`, used by `run_check` when it
synthesizes an error outcome) and the recommended remediation action. -/
structure RegistryEntry where
  fn_name : String
  fn : ServiceNowClient → Except String AuditCheck
  action : String

/-- `CHECK_REGISTRY` (remediation.py lines 32-73): map from check name to check
function and recommended remediation action. -/
def CHECK_REGISTRY : List (String × RegistryEntry) :=
  [("orphan_cis",
    ⟨"check_orphan_compliance", check_orphan_compliance,
     "Review orphan CIs and either create relationships or decommission"⟩),
   ("stale_records",
    ⟨"check_stale_compliance", check_stale_compliance,
     "Update stale CI records or mark as retired if no longer valid"⟩),
   ("duplicate_cis",
    ⟨"check_duplicate_compliance", check_duplicate_compliance,
     "Merge or deduplicate CIs with matching name and class"⟩),
   ("missing_ip_address",
    ⟨"check_missing_field_compliance", check_missing_field_compliance,
     "Populate IP address field on server CIs or run discovery"⟩),
   ("stale_discovery_schedules",
    ⟨"check_stale_schedules", check_stale_schedules,
     "Review and re-enable stale discovery schedules"⟩),
   ("pattern_coverage",
    ⟨"check_pattern_coverage", check_pattern_coverage,
     "Add more discovery patterns to improve coverage"⟩),
   ("ci_reconciliation",
    ⟨"check_ci_reconciliation", check_ci_reconciliation,
     "Run discovery or manually set discovery_source on unreconciled CIs"⟩),
   ("license_overallocation",
    ⟨"check_license_overallocation", check_license_overallocation,
     "Reduce installed count or procure additional licenses"⟩),
   ("expired_hardware",
    ⟨"check_expired_hardware", check_expired_hardware,
     "Plan hardware refresh for end-of-life assets"⟩),
   ("unassigned_assets",
    ⟨"check_unassigned_assets", check_unassigned_assets,
     "Assign active assets to responsible users or teams"⟩)]

/-- `RemediationItem` (models.py).  The uuid4 `id` is a plain string here
(`create_remediation_plan` leaves it empty; concrete plans in theorems set it
explicitly). -/
structure RemediationItem where
  id : String := ""
  check_name : String
  priority : CheckSeverity
  action : String
  target_sys_ids : List String := []
  status : RemediationItemStatus := RemediationItemStatus.pending
  notes : String := ""
deriving DecidableEq, Repr

/-- `RemediationPlan` (models.py); `created_at` is not modelled. -/
structure RemediationPlan where
  id : String := ""
  audit_result_id : String
  items : List RemediationItem := []
  status : String := "active"
  progress_pct : ℚ := 0
deriving DecidableEq, Repr

/-- The item built for one failing check in `create_remediation_plan`
(remediation.py lines 92-99). -/
def item_of_check (check : AuditCheck) : RemediationItem :=
  let registry_action :=
    match CHECK_REGISTRY.lookup check.name with
    | some entry => entry.action
    | none => "Remediate: " ++ check.description
  { id := ""
    check_name := check.name
    priority := check.severity
    action := registry_action
    target_sys_ids := check.affected_sys_ids.take 50 }

/-- The unsorted item list of `create_remediation_plan` (remediation.py lines
88-99): one item per `status=fail` check, in check order. -/
def remediation_items_of (result : AuditResult) : List RemediationItem :=
  (result.checks.filter fun c => c.status == CheckStatus.fail).map item_of_check

/-- `priority_order = {"critical": 0, "high": 1, "medium": 2, "low": 3}`
(remediation.py line 102).  The `.get(priority, 4)` default is unreachable:
every priority is one of the four keys. -/
def priority_order : CheckSeverity → Nat
  | CheckSeverity.critical => 0
  | CheckSeverity.high => 1
  | CheckSeverity.medium => 2
  | CheckSeverity.low => 3

/-- The sort key comparison of `items.sort(key=...)` (remediation.py line 103). -/
def item_le (a b : RemediationItem) : Prop :=
  priority_order a.priority ≤ priority_order b.priority

instance : DecidableRel item_le := fun _ _ => Nat.decLe _ _

instance : IsTotal RemediationItem item_le := ⟨fun _ _ => Nat.le_total _ _⟩

instance : IsTrans RemediationItem item_le := ⟨fun _ _ _ => Nat.le_trans⟩

instance : IsRefl RemediationItem item_le := ⟨fun _ => Nat.le_refl _⟩

/-- `create_remediation_plan` (remediation.py lines 76-113).  The audit result
is passed in already loaded (the source loads it from storage by id and saves
the plan at the end).  `items.sort(key=lambda item: priority_order...)` is
Python's stable Timsort; it is modelled by the stable `List.insertionSort`,
which produces the identical list for any stable sort by this key. -/
def create_remediation_plan (audit_id : String) (result : AuditResult) : RemediationPlan :=
  let items := remediation_items_of result
  let sorted_items := List.insertionSort item_le items
  { id := ""
    audit_result_id := audit_id
    items := sorted_items
    status := if sorted_items.isEmpty then "empty" else "active"
    progress_pct := 0 }

/-- The dict returned by `track_remediation_progress` (remediation.py lines
143-154). -/
structure ProgressReport where
  plan_id : String
  audit_result_id : String
  status : String
  progress_pct : ℚ
  total_items : Nat
  done : Nat
  in_progress : Nat
  pending : Nat
  skipped : Nat
  items : List RemediationItem
deriving DecidableEq, Repr

/-- `track_remediation_progress` (remediation.py lines 116-154): recompute the
plan's progress percentage, auto-complete the plan when every item is done or
skipped, and return the (persisted) updated plan together with the report. -/
def track_remediation_progress (plan : RemediationPlan) : RemediationPlan × ProgressReport :=
  let total := plan.items.length
  let done := plan.items.countP fun i => i.status == RemediationItemStatus.done
  let in_progress := plan.items.countP fun i => i.status == RemediationItemStatus.in_progress
  let pending := plan.items.countP fun i => i.status == RemediationItemStatus.pending
  let skipped := plan.items.countP fun i => i.status == RemediationItemStatus.skipped
  let progress : ℚ := if total > 0 then (done : ℚ) / (total : ℚ) * 100 else 0
  let plan := { plan with progress_pct := round2 progress }
  let plan :=
    if total > 0 ∧ done + skipped = total then { plan with status := "completed" } else plan
  (plan,
   { plan_id := plan.id
     audit_result_id := plan.audit_result_id
     status := plan.status
     progress_pct := plan.progress_pct
     total_items := total
     done := done
     in_progress := in_progress
     pending := pending
     skipped := skipped
     items := plan.items })

/-- The dict returned by `validate_compliance_fix` (remediation.py lines
185-221): either an error dict or the validation data. -/
inductive ValidationResult where
  | failed (message : String)
  | ok (plan_id item_id check_name : String) (previous_status : String)
      (new_status : CheckStatus) (is_fixed : Bool) (details : String)
deriving DecidableEq, Repr

/-- In-place mutation of the first item whose id matches, as the Python
`for item in plan.items: if item.id == item_id: target_item = item; break`
followed by mutating `target_item` does. -/
def update_first_item (items : List RemediationItem) (item_id : String)
    (f : RemediationItem → RemediationItem) : List RemediationItem :=
  match items with
  | [] => []
  | i :: rest =>
      if i.id == item_id then f i :: rest else i :: update_first_item rest item_id f

/-- `validate_compliance_fix` (remediation.py lines 157-221): look up the item
and its registered check function, re-run the check through the engine's
failure-isolated `run_check`, mark the item done when the fresh outcome passes,
recompute progress/completion, and return the updated (persisted) plan with
the validation result. -/
def validate_compliance_fix (plan : RemediationPlan) (item_id : String)
    (client : ServiceNowClient) : RemediationPlan × ValidationResult :=
  match plan.items.find? fun i => i.id == item_id with
  | none =>
      let pid := plan.id
      (plan, ValidationResult.failed s!"Item {item_id} not found in plan {pid}")
  | some target_item =>
    match CHECK_REGISTRY.lookup target_item.check_name with
    | none =>
        let cn := target_item.check_name
        (plan, ValidationResult.failed s!"No check function registered for {cn}")
    | some entry =>
      let new_check := run_check ⟨entry.fn_name, entry.fn client⟩
      let is_fixed := new_check.status == CheckStatus.pass
      let items := update_first_item plan.items item_id fun item =>
        if is_fixed then
          { item with status := RemediationItemStatus.done, notes := "Validated: check now passes" }
        else
          { item with notes := "Validation failed: " ++ new_check.details }
      let total := items.length
      let done := items.countP fun i => i.status == RemediationItemStatus.done
      let skipped := items.countP fun i => i.status == RemediationItemStatus.skipped
      let progress : ℚ := if total > 0 then (done : ℚ) / (total : ℚ) * 100 else 0
      let plan := { plan with items := items, progress_pct := round2 progress }
      let plan :=
        if total > 0 ∧ done + skipped = total then { plan with status := "completed" } else plan
      (plan,
       ValidationResult.ok plan.id item_id target_item.check_name "fail"
         new_check.status is_fixed new_check.details)

/-- `all_check_fns` of `run_full_audit` (orchestration.py lines 55-69): the ten
check functions of all three domains, wrapped in lambdas, in source order. -/
def full_audit_check_fns (client : ServiceNowClient) : List (Except String AuditCheck) :=
  [check_orphan_compliance client,
   check_stale_compliance client,
   check_duplicate_compliance client,
   check_missing_field_compliance client,
   check_stale_schedules client,
   check_pattern_coverage client,
   check_ci_reconciliation client,
   check_license_overallocation client,
   check_expired_hardware client,
   check_unassigned_assets client]

/-- `run_full_audit` (orchestration.py lines 34-102).  The try/except around
each lambda duplicates the engine's failure isolation; `fn.__name__` of a
lambda is `"<lambda>"`. -/
def run_full_audit (client : ServiceNowClient) : AuditResult :=
  let checks := (full_audit_check_fns client).map fun fn =>
    match fn with
    | Except.ok c => c
    | Except.error exc =>
        { name := "<lambda>"
          description := s!"Check failed: {exc}"
          severity := CheckSeverity.medium
          status := CheckStatus.error
          details := exc }
  let score := calculate_score checks
  let passed := checks.countP fun c => c.status == CheckStatus.pass
  let failed := checks.countP fun c => c.status == CheckStatus.fail
  let errors := checks.countP fun c => c.status == CheckStatus.error
  let n := checks.length
  { audit_type := AuditType.full
    checks := checks
    score := some score
    status :=
      if errors > 0 then "completed_with_errors"
      else if failed > 0 then "completed"
      else "passed"
    summary := s!"Full audit: {passed} passed, {failed} failed, {errors} errors out of {n} checks" }

/-- `severity_map` of `run_cmdb_audit` (cmdb.py lines 208-213). -/
def cmdb_severity_map : List (String × String) :=
  [("cmdb_orphan_compliance", "medium"),
   ("cmdb_stale_compliance", "high"),
   ("cmdb_duplicate_compliance", "high"),
   ("cmdb_missing_field_compliance", "critical")]

/-- `check_fns` of `run_cmdb_audit` (cmdb.py lines 215-220): four lambdas
(each with `__name__ = "<lambda>"`) in source order. -/
def cmdb_check_fns (client : ServiceNowClient) : List CheckFn :=
  [⟨"<lambda>", check_orphan_compliance client⟩,
   ⟨"<lambda>", check_stale_compliance client⟩,
   ⟨"<lambda>", check_duplicate_compliance client⟩,
   ⟨"<lambda>", check_missing_field_compliance client⟩]

/-- `run_cmdb_audit` (cmdb.py lines 188-234).  `if severity_filter:` is Python
truthiness: `None` and `""` leave the check list unfiltered; otherwise the
zip-filter keeps the checks whose mapped severity equals the filter, falling
back to all four checks when nothing matches. -/
def run_cmdb_audit (client : ServiceNowClient) (severity_filter : Option String) : AuditResult :=
  let names := cmdb_severity_map.map Prod.fst
  let check_fns := cmdb_check_fns client
  let check_fns :=
    match severity_filter with
    | none => check_fns
    | some s =>
        if s = "" then check_fns
        else
          let filtered_fns := ((check_fns.zip names).filter fun p =>
            cmdb_severity_map.lookup p.2 == some s).map Prod.fst
          if filtered_fns.isEmpty then check_fns else filtered_fns
  run_audit AuditType.cmdb check_fns

/-- `failed_1` / `failed_2` of `compare_audits` (history.py lines 52-53): the
set of `fail`-status check names of one audit result. -/
def failed_names (result : AuditResult) : Finset String :=
  ((result.checks.filter fun c => c.status == CheckStatus.fail).map AuditCheck.name).toFinset

/-- The dict returned by `compare_audits` (history.py lines 61-73).  Python
returns the three finding sets as sorted lists; the sets themselves are
modelled (sorting is presentation only). -/
structure ComparisonResult where
  score_1 : ℚ
  score_2 : ℚ
  score_delta : ℚ
  trend : String
  new_findings : Finset String
  resolved_findings : Finset String
  persistent_findings : Finset String
  checks_count_1 : Nat
  checks_count_2 : Nat
deriving DecidableEq

/-- `compare_audits` (history.py lines 31-73), over the two already-loaded
audit results. -/
def compare_audits (result_1 result_2 : AuditResult) : ComparisonResult :=
  let score_1 := match result_1.score with | some s => s.overall_score | none => 0
  let score_2 := match result_2.score with | some s => s.overall_score | none => 0
  let score_delta := round2 (score_2 - score_1)
  let failed_1 := failed_names result_1
  let failed_2 := failed_names result_2
  { score_1 := score_1
    score_2 := score_2
    score_delta := score_delta
    trend :=
      if score_delta > 0 then "improving"
      else if score_delta < 0 then "declining"
      else "stable"
    new_findings := failed_2 \ failed_1
    resolved_findings := failed_1 \ failed_2
    persistent_findings := failed_1 ∩ failed_2
    checks_count_1 := result_1.checks.length
    checks_count_2 := result_2.checks.length }

theorem tier_checks_nil_of_unscorable {checks : List AuditCheck}
    (h : ∀ c ∈ checks, c.status ≠ CheckStatus.pass ∧ c.status ≠ CheckStatus.fail)
    (sev : CheckSeverity) : tier_checks checks sev = [] := by
  refine List.filter_eq_nil_iff.mpr fun c hc => ?_
  obtain ⟨h1, h2⟩ := h c hc
  simp [beq_iff_eq, h1, h2]

theorem tier_passed_of_nil {checks : List AuditCheck} {sev : CheckSeverity}
    (h : tier_checks checks sev = []) : tier_passed checks sev = 0 := by
  unfold tier_passed
  rw [h]
  rfl

theorem tier_score_of_nil {checks : List AuditCheck} {sev : CheckSeverity}
    (h : tier_checks checks sev = []) : tier_score checks sev = 100 := by
  unfold tier_score
  rw [if_pos h]

theorem calculate_score_of_all_nil {checks : List AuditCheck}
    (h : ∀ sev, tier_checks checks sev = []) :
    calculate_score checks =
      { overall_score := 100, critical_score := 100, high_score := 100, medium_score := 100,
        low_score := 100, passed_count := 0, failed_count := 0, total_count := 0 } := by
  have hts : ∀ sev, tier_score checks sev = 100 := fun sev => tier_score_of_nil (h sev)
  have htp : ∀ sev, tier_passed checks sev = 0 := fun sev => tier_passed_of_nil (h sev)
  simp only [calculate_score, weighted_overall, weight_sum, SEVERITY_WEIGHTS,
    List.map_cons, List.map_nil, List.sum_cons, List.sum_nil, hts, htp, h,
    List.length_nil, ComplianceScore.mk.injEq]
  norm_num [round2]

/-- C6: a check list containing no `pass`/`fail` check (in particular the
empty list) scores overall 100, all four tier scores 100, and zero
passed/failed/total counts — identical to the empty list — and any severity
tier with zero scoreable checks contributes a tier score of exactly 100. -/
theorem claim_C6_vacuous_compliance :
    (∀ checks : List AuditCheck,
      (∀ c ∈ checks, c.status ≠ CheckStatus.pass ∧ c.status ≠ CheckStatus.fail) →
        calculate_score checks = calculate_score [] ∧
        calculate_score checks =
          { overall_score := 100, critical_score := 100, high_score := 100,
            medium_score := 100, low_score := 100,
            passed_count := 0, failed_count := 0, total_count := 0 }) ∧
    (∀ checks : List AuditCheck,
      (tier_checks checks CheckSeverity.critical = [] →
        (calculate_score checks).critical_score = 100) ∧
      (tier_checks checks CheckSeverity.high = [] →
        (calculate_score checks).high_score = 100) ∧
      (tier_checks checks CheckSeverity.medium = [] →
        (calculate_score checks).medium_score = 100) ∧
      (tier_checks checks CheckSeverity.low = [] →
        (calculate_score checks).low_score = 100)) := by
  have hfield : ∀ (checks : List AuditCheck) (sev : CheckSeverity),
      tier_checks checks sev = [] → round2 (tier_score checks sev) = 100 := by
    intro checks sev h
    rw [tier_score_of_nil h]
    norm_num [round2]
  constructor
  · intro checks h
    have hnil : ∀ sev, tier_checks checks sev = [] := tier_checks_nil_of_unscorable h
    have hnil0 : ∀ sev, tier_checks ([] : List AuditCheck) sev = [] := fun _ => rfl
    rw [calculate_score_of_all_nil hnil, calculate_score_of_all_nil hnil0]
    simp
  · intro checks
    exact ⟨hfield checks CheckSeverity.critical, hfield checks CheckSeverity.high,
      hfield checks CheckSeverity.medium, hfield checks CheckSeverity.low⟩

/-- Witness for C6 at a concrete skip/error-only list. -/
theorem claim_C6_vacuous_compliance_witness :
    calculate_score
        [{ name := "a", description := "d", severity := CheckSeverity.critical,
           status := CheckStatus.skip },
         { name := "b", description := "d", severity := CheckSeverity.low,
           status := CheckStatus.error }] =
      { overall_score := 100, critical_score := 100, high_score := 100,
        medium_score := 100, low_score := 100,
        passed_count := 0, failed_count := 0, total_count := 0 } :=
  (claim_C6_vacuous_compliance.1 _ (by decide)).2

/-- C7: the four severity weights sum to exactly 1, and of two single-check
lists differing only in the check's severity, the one whose single failing
check is `critical` scores strictly lower overall than the one whose single
failing check is `low`. -/
theorem claim_C7_weight_sum_and_severity_ordering :
    weight_sum = 1 ∧
    ∀ (name description details : String) (affected_count : Nat) (ids : List String),
      (calculate_score [⟨name, description, CheckSeverity.critical, CheckStatus.fail,
          details, affected_count, ids⟩]).overall_score <
        (calculate_score [⟨name, description, CheckSeverity.low, CheckStatus.fail,
          details, affected_count, ids⟩]).overall_score := by
  constructor
  · norm_num [weight_sum, SEVERITY_WEIGHTS]
  · intro name description details affected_count ids
    have hc : (calculate_score [⟨name, description, CheckSeverity.critical, CheckStatus.fail,
        details, affected_count, ids⟩]).overall_score = 60 := by
      simp [calculate_score, weighted_overall, weight_sum, SEVERITY_WEIGHTS,
        tier_score, tier_passed, tier_checks]
      norm_num [round2]
    have hl : (calculate_score [⟨name, description, CheckSeverity.low, CheckStatus.fail,
        details, affected_count, ids⟩]).overall_score = 90 := by
      simp [calculate_score, weighted_overall, weight_sum, SEVERITY_WEIGHTS,
        tier_score, tier_passed, tier_checks]
      norm_num [round2]
    rw [hc, hl]
    norm_num

theorem run_check_of_error {fn : CheckFn} {exc : String} (h : fn.run = Except.error exc) :
    (run_check fn).status = CheckStatus.error ∧
    (run_check fn).severity = CheckSeverity.medium := by
  simp [run_check, h]

/-- C1: `run_audit` is total over any check-function list: its checks are
exactly the `run_check` images of the functions (so a raising function yields
one outcome in place), a raising function's outcome has `status=error` and
`severity=medium`, and if any function raises the run's status is
`completed_with_errors`. -/
theorem claim_C1_failure_isolation (audit_type : AuditType) (check_fns : List CheckFn) :
    (run_audit audit_type check_fns).checks = check_fns.map run_check ∧
    (∀ fn : CheckFn, ∀ exc : String, fn.run = Except.error exc →
      (run_check fn).status = CheckStatus.error ∧
      (run_check fn).severity = CheckSeverity.medium) ∧
    ((∃ fn ∈ check_fns, ∃ exc, fn.run = Except.error exc) →
      (run_audit audit_type check_fns).status = "completed_with_errors") := by
  refine ⟨rfl, fun fn exc h => run_check_of_error h, ?_⟩
  rintro ⟨fn, hfn, exc, herr⟩
  have hany : (check_fns.map run_check).any (fun c => c.status == CheckStatus.error) = true :=
    List.any_eq_true.mpr ⟨run_check fn, List.mem_map_of_mem _ hfn,
      by simp [(run_check_of_error herr).1]⟩
  simp [run_audit, hany]

/-- Witness for C1 with one raising check function. -/
theorem claim_C1_failure_isolation_witness :
    (run_audit AuditType.cmdb [⟨"boom", Except.error "x"⟩]).status = "completed_with_errors" :=
  (claim_C1_failure_isolation AuditType.cmdb [⟨"boom", Except.error "x"⟩]).2.2
    ⟨⟨"boom", Except.error "x"⟩, List.mem_singleton_self _, "x", rfl⟩

theorem ite_status_any (l : List AuditCheck) :
    ((∃ c ∈ l, c.status = CheckStatus.error) →
      (if l.any (fun c => c.status == CheckStatus.error) then "completed_with_errors"
       else if l.countP (fun c => c.status == CheckStatus.fail) > 0 then "completed"
       else "passed") = "completed_with_errors") ∧
    ((∀ c ∈ l, c.status ≠ CheckStatus.error) → (∃ c ∈ l, c.status = CheckStatus.fail) →
      (if l.any (fun c => c.status == CheckStatus.error) then "completed_with_errors"
       else if l.countP (fun c => c.status == CheckStatus.fail) > 0 then "completed"
       else "passed") = "completed") ∧
    ((∀ c ∈ l, c.status ≠ CheckStatus.error) → (∀ c ∈ l, c.status ≠ CheckStatus.fail) →
      (if l.any (fun c => c.status == CheckStatus.error) then "completed_with_errors"
       else if l.countP (fun c => c.status == CheckStatus.fail) > 0 then "completed"
       else "passed") = "passed") := by
  refine ⟨fun h => ?_, fun hne hf => ?_, fun hne hnf => ?_⟩
  · obtain ⟨c, hc, hcs⟩ := h
    exact if_pos (List.any_eq_true.mpr ⟨c, hc, by simp [hcs]⟩)
  · have hany : l.any (fun c => c.status == CheckStatus.error) = false :=
      List.any_eq_false.mpr fun c hc => by simp [hne c hc]
    rw [hany]
    simp only [Bool.false_eq_true, if_false]
    obtain ⟨c, hc, hcs⟩ := hf
    exact if_pos (List.countP_pos_iff.mpr ⟨c, hc, by simp [hcs]⟩)
  · have hany : l.any (fun c => c.status == CheckStatus.error) = false :=
      List.any_eq_false.mpr fun c hc => by simp [hne c hc]
    have hcnt : l.countP (fun c => c.status == CheckStatus.fail) = 0 :=
      List.countP_eq_zero.mpr fun c hc => by simp [hnf c hc]
    rw [hany]
    simp only [Bool.false_eq_true, if_false]
    rw [if_neg]
    simp [hcnt]

theorem ite_status_count (l : List AuditCheck) :
    ((∃ c ∈ l, c.status = CheckStatus.error) →
      (if l.countP (fun c => c.status == CheckStatus.error) > 0 then "completed_with_errors"
       else if l.countP (fun c => c.status == CheckStatus.fail) > 0 then "completed"
       else "passed") = "completed_with_errors") ∧
    ((∀ c ∈ l, c.status ≠ CheckStatus.error) → (∃ c ∈ l, c.status = CheckStatus.fail) →
      (if l.countP (fun c => c.status == CheckStatus.error) > 0 then "completed_with_errors"
       else if l.countP (fun c => c.status == CheckStatus.fail) > 0 then "completed"
       else "passed") = "completed") ∧
    ((∀ c ∈ l, c.status ≠ CheckStatus.error) → (∀ c ∈ l, c.status ≠ CheckStatus.fail) →
      (if l.countP (fun c => c.status == CheckStatus.error) > 0 then "completed_with_errors"
       else if l.countP (fun c => c.status == CheckStatus.fail) > 0 then "completed"
       else "passed") = "passed") := by
  refine ⟨fun h => ?_, fun hne hf => ?_, fun hne hnf => ?_⟩
  · obtain ⟨c, hc, hcs⟩ := h
    exact if_pos (List.countP_pos_iff.mpr ⟨c, hc, by simp [hcs]⟩)
  · have herr : l.countP (fun c => c.status == CheckStatus.error) = 0 :=
      List.countP_eq_zero.mpr fun c hc => by simp [hne c hc]
    rw [if_neg]
    · obtain ⟨c, hc, hcs⟩ := hf
      exact if_pos (List.countP_pos_iff.mpr ⟨c, hc, by simp [hcs]⟩)
    · simp [herr]
  · have herr : l.countP (fun c => c.status == CheckStatus.error) = 0 :=
      List.countP_eq_zero.mpr fun c hc => by simp [hne c hc]
    have hcnt : l.countP (fun c => c.status == CheckStatus.fail) = 0 :=
      List.countP_eq_zero.mpr fun c hc => by simp [hnf c hc]
    rw [if_neg, if_neg]
    · simp [hcnt]
    · simp [herr]

/-- C3: status derivation priority.  For the per-domain engine's `run_audit`
and for the consolidated orchestrator's `run_full_audit`: any `error` check
makes the run `completed_with_errors`; otherwise any `fail` check makes it
`completed`; otherwise it is `passed`. -/
theorem claim_C3_status_derivation :
    (∀ (audit_type : AuditType) (check_fns : List CheckFn),
      ((∃ c ∈ (run_audit audit_type check_fns).checks, c.status = CheckStatus.error) →
        (run_audit audit_type check_fns).status = "completed_with_errors") ∧
      ((∀ c ∈ (run_audit audit_type check_fns).checks, c.status ≠ CheckStatus.error) →
        (∃ c ∈ (run_audit audit_type check_fns).checks, c.status = CheckStatus.fail) →
        (run_audit audit_type check_fns).status = "completed") ∧
      ((∀ c ∈ (run_audit audit_type check_fns).checks, c.status ≠ CheckStatus.error) →
        (∀ c ∈ (run_audit audit_type check_fns).checks, c.status ≠ CheckStatus.fail) →
        (run_audit audit_type check_fns).status = "passed")) ∧
    (∀ client : ServiceNowClient,
      ((∃ c ∈ (run_full_audit client).checks, c.status = CheckStatus.error) →
        (run_full_audit client).status = "completed_with_errors") ∧
      ((∀ c ∈ (run_full_audit client).checks, c.status ≠ CheckStatus.error) →
        (∃ c ∈ (run_full_audit client).checks, c.status = CheckStatus.fail) →
        (run_full_audit client).status = "completed") ∧
      ((∀ c ∈ (run_full_audit client).checks, c.status ≠ CheckStatus.error) →
        (∀ c ∈ (run_full_audit client).checks, c.status ≠ CheckStatus.fail) →
        (run_full_audit client).status = "passed")) := by
  constructor
  · intro audit_type check_fns
    exact ite_status_any (check_fns.map run_check)
  · intro client
    exact ite_status_count ((run_full_audit client).checks)


/-- Witness for C3: one failing check and no error check gives `completed`. -/
theorem claim_C3_status_derivation_witness :
    (run_audit AuditType.asset
      [⟨"f", Except.ok ⟨"c1", "d", CheckSeverity.low, CheckStatus.fail, "", 0, []⟩⟩]).status =
      "completed" :=
  (claim_C3_status_derivation.1 AuditType.asset
      [⟨"f", Except.ok ⟨"c1", "d", CheckSeverity.low, CheckStatus.fail, "", 0, []⟩⟩]).2.1
    (by decide) (by decide)

theorem round2_of_hundredths (m : ℤ) : round2 ((m : ℚ) / 100) = (m : ℚ) / 100 := by
  unfold round2
  rw [div_mul_cancel₀ _ (by norm_num : (100 : ℚ) ≠ 0), round_intCast]

/-- C8: `compare_audits` computes `new = failed(b) - failed(a)`,
`resolved = failed(a) - failed(b)`, `persistent = failed(a) ∩ failed(b)`;
these are pairwise disjoint and their union is `failed(a) ∪ failed(b)`;
`score_delta = score_2 - score_1` (exact whenever both stored scores have at
most two decimal places, as every scorer output does), and the trend is
`improving`/`declining`/`stable` by the sign of the delta. -/
theorem claim_C8_comparison_sets_and_trend (result_1 result_2 : AuditResult) :
    (compare_audits result_1 result_2).new_findings =
        failed_names result_2 \ failed_names result_1 ∧
    (compare_audits result_1 result_2).resolved_findings =
        failed_names result_1 \ failed_names result_2 ∧
    (compare_audits result_1 result_2).persistent_findings =
        failed_names result_1 ∩ failed_names result_2 ∧
    Disjoint (compare_audits result_1 result_2).new_findings
      (compare_audits result_1 result_2).resolved_findings ∧
    Disjoint (compare_audits result_1 result_2).new_findings
      (compare_audits result_1 result_2).persistent_findings ∧
    Disjoint (compare_audits result_1 result_2).resolved_findings
      (compare_audits result_1 result_2).persistent_findings ∧
    (compare_audits result_1 result_2).new_findings ∪
        (compare_audits result_1 result_2).resolved_findings ∪
        (compare_audits result_1 result_2).persistent_findings =
      failed_names result_1 ∪ failed_names result_2 ∧
    ((∃ m : ℤ, (compare_audits result_1 result_2).score_1 = (m : ℚ) / 100) →
      (∃ n : ℤ, (compare_audits result_1 result_2).score_2 = (n : ℚ) / 100) →
      (compare_audits result_1 result_2).score_delta =
        (compare_audits result_1 result_2).score_2 -
          (compare_audits result_1 result_2).score_1) ∧
    (compare_audits result_1 result_2).trend =
      (if (compare_audits result_1 result_2).score_delta > 0 then "improving"
       else if (compare_audits result_1 result_2).score_delta < 0 then "declining"
       else "stable") := by
  refine ⟨rfl, rfl, rfl, ?_, ?_, ?_, ?_, ?_, rfl⟩
  · rw [Finset.disjoint_left]
    intro a ha hb
    simp only [compare_audits, Finset.mem_sdiff] at ha hb
    exact hb.2 ha.1
  · rw [Finset.disjoint_left]
    intro a ha hb
    simp only [compare_audits, Finset.mem_sdiff, Finset.mem_inter] at ha hb
    exact ha.2 hb.1
  · rw [Finset.disjoint_left]
    intro a ha hb
    simp only [compare_audits, Finset.mem_sdiff, Finset.mem_inter] at ha hb
    exact ha.2 hb.2
  · ext a
    simp only [compare_audits, Finset.mem_union, Finset.mem_sdiff, Finset.mem_inter]
    tauto
  · rintro ⟨m, hm⟩ ⟨n, hn⟩
    show round2 ((compare_audits result_1 result_2).score_2 -
      (compare_audits result_1 result_2).score_1) = _
    rw [hm, hn, div_sub_div_same, ← Int.cast_sub, round2_of_hundredths]

/-- Witness for C8's score-delta clause at two concrete audit results. -/
theorem claim_C8_comparison_sets_and_trend_witness :
    (compare_audits ⟨AuditType.cmdb, [], some ⟨50, 100, 100, 100, 100, 1, 1, 2⟩, "completed", ""⟩
        ⟨AuditType.cmdb, [], none, "passed", ""⟩).score_delta =
      (compare_audits ⟨AuditType.cmdb, [], some ⟨50, 100, 100, 100, 100, 1, 1, 2⟩, "completed", ""⟩
          ⟨AuditType.cmdb, [], none, "passed", ""⟩).score_2 -
        (compare_audits ⟨AuditType.cmdb, [], some ⟨50, 100, 100, 100, 100, 1, 1, 2⟩, "completed", ""⟩
            ⟨AuditType.cmdb, [], none, "passed", ""⟩).score_1 :=
  (claim_C8_comparison_sets_and_trend
      ⟨AuditType.cmdb, [], some ⟨50, 100, 100, 100, 100, 1, 1, 2⟩, "completed", ""⟩
      ⟨AuditType.cmdb, [], none, "passed", ""⟩).2.2.2.2.2.2.2.1
    ⟨5000, by show (50 : ℚ) = ((5000 : ℤ) : ℚ) / 100; norm_num⟩
    ⟨0, by show (0 : ℚ) = ((0 : ℤ) : ℚ) / 100; norm_num⟩

/-- C2 counterexample: for the concrete plan with items `[done, skipped]`,
`track_remediation_progress` reports `progress_pct = 50`, not `100` — the
claim's required value `100.0` contradicts its own formula `100 * done/total`. -/
theorem claim_C2_plan_completion_counterexample :
    (track_remediation_progress
        ⟨"p", "a", [⟨"i1", "orphan_cis", CheckSeverity.medium, "act", [],
            RemediationItemStatus.done, ""⟩,
          ⟨"i2", "stale_records", CheckSeverity.high, "act", [],
            RemediationItemStatus.skipped, ""⟩], "active", 0⟩).2.progress_pct = 50 ∧
    ¬ (track_remediation_progress
        ⟨"p", "a", [⟨"i1", "orphan_cis", CheckSeverity.medium, "act", [],
            RemediationItemStatus.done, ""⟩,
          ⟨"i2", "stale_records", CheckSeverity.high, "act", [],
            RemediationItemStatus.skipped, ""⟩], "active", 0⟩).2.progress_pct = 100 := by
  have h : (track_remediation_progress
      ⟨"p", "a", [⟨"i1", "orphan_cis", CheckSeverity.medium, "act", [],
          RemediationItemStatus.done, ""⟩,
        ⟨"i2", "stale_records", CheckSeverity.high, "act", [],
          RemediationItemStatus.skipped, ""⟩], "active", 0⟩).2.progress_pct = 50 := by
    simp [track_remediation_progress]
    norm_num [round2]
  refine ⟨h, ?_⟩
  rw [h]
  norm_num

/-- C2 (amended): a plan whose two items have statuses `done` and `skipped`
tracks to plan status `completed` with `progress_pct = 50` (the code computes
`100 * done/total = 100 * 1/2`; `skipped` counts toward completion but not
toward the percentage numerator). -/
theorem claim_C2_plan_completion (plan : RemediationPlan)
    (h : plan.items.map RemediationItem.status =
      [RemediationItemStatus.done, RemediationItemStatus.skipped]) :
    (track_remediation_progress plan).1.status = "completed" ∧
    (track_remediation_progress plan).2.status = "completed" ∧
    (track_remediation_progress plan).2.progress_pct = 50 := by
  match hit : plan.items with
  | [] => rw [hit] at h; simp at h
  | a :: t =>
    rw [hit] at h
    simp only [List.map_cons, List.cons.injEq] at h
    obtain ⟨ha, h2⟩ := h
    match t with
    | [] => simp at h2
    | b :: t2 =>
      simp only [List.map_cons, List.cons.injEq] at h2
      obtain ⟨hb, h3⟩ := h2
      have ht2 : t2 = [] := List.map_eq_nil_iff.mp h3
      subst ht2
      refine ⟨?_, ?_, ?_⟩ <;>
        simp [track_remediation_progress, hit, ha, hb] <;>
        norm_num [round2]

/-- Witness for C2 (amended) at a concrete two-item plan. -/
theorem claim_C2_plan_completion_witness :
    (track_remediation_progress
        ⟨"p2", "a2", [⟨"j1", "expired_hardware", CheckSeverity.high, "act", [],
            RemediationItemStatus.done, ""⟩,
          ⟨"j2", "unassigned_assets", CheckSeverity.low, "act", [],
            RemediationItemStatus.skipped, ""⟩], "active", 0⟩).1.status = "completed" :=
  (claim_C2_plan_completion
      ⟨"p2", "a2", [⟨"j1", "expired_hardware", CheckSeverity.high, "act", [],
          RemediationItemStatus.done, ""⟩,
        ⟨"j2", "unassigned_assets", CheckSeverity.low, "act", [],
          RemediationItemStatus.skipped, ""⟩], "active", 0⟩ (by simp)).1

/-- C4 counterexample: a remediation item with terminal status `skipped` is
moved to `done` by `validate_compliance_fix` when the re-run check passes —
`skipped` is not a terminal state under fix validation. -/
theorem claim_C4_terminal_states_counterexample :
    ((validate_compliance_fix
        ⟨"p", "a", [⟨"i1", "unassigned_assets", CheckSeverity.low, "act", [],
            RemediationItemStatus.skipped, ""⟩], "active", 0⟩
        "i1" ⟨fun _ _ _ _ => Except.ok []⟩).1.items.map RemediationItem.status) =
      [RemediationItemStatus.done] := rfl

theorem forall2_update_first {R : RemediationItem → RemediationItem → Prop}
    (items : List RemediationItem) (item_id : String) (f : RemediationItem → RemediationItem)
    (hrefl : ∀ i, R i i) (hf : ∀ i, R i (f i)) :
    List.Forall₂ R items (update_first_item items item_id f) := by
  induction items with
  | nil => exact List.Forall₂.nil
  | cons a t ih =>
      unfold update_first_item
      by_cases h : (a.id == item_id) = true
      · rw [if_pos h]
        exact List.Forall₂.cons (hf a) (List.forall₂_same.mpr fun i _ => hrefl i)
      · rw [if_neg h]
        exact List.Forall₂.cons (hrefl a) ih

/-- C4 (amended): under progress tracking and fix validation, `done` is
terminal and a `skipped` item either stays `skipped` or — only when fix
validation re-runs its check and the check passes — moves to `done`;
progress tracking never alters any item. -/
theorem claim_C4_terminal_states_amended :
    (∀ plan : RemediationPlan, (track_remediation_progress plan).1.items = plan.items) ∧
    (∀ (plan : RemediationPlan) (item_id : String) (client : ServiceNowClient),
      List.Forall₂ (fun i i' =>
          (i.status = RemediationItemStatus.done → i'.status = RemediationItemStatus.done) ∧
          (i.status = RemediationItemStatus.skipped →
            i'.status = RemediationItemStatus.skipped ∨
              i'.status = RemediationItemStatus.done))
        plan.items (validate_compliance_fix plan item_id client).1.items) := by
  constructor
  · intro plan
    unfold track_remediation_progress
    dsimp only
    split
    · rfl
    · rfl
  · intro plan item_id client
    unfold validate_compliance_fix
    cases hf : plan.items.find? fun i => i.id == item_id with
    | none =>
        dsimp only
        exact List.forall₂_same.mpr fun i _ => ⟨fun h => h, fun h => Or.inl h⟩
    | some target_item =>
        dsimp only
        cases hr : CHECK_REGISTRY.lookup target_item.check_name with
        | none =>
            dsimp only
            exact List.forall₂_same.mpr fun i _ => ⟨fun h => h, fun h => Or.inl h⟩
        | some entry =>
            dsimp only
            split <;> split <;>
              first
              | exact forall2_update_first _ _ _
                  (fun i => ⟨fun h => h, fun h => Or.inl h⟩)
                  (fun i => ⟨fun _ => rfl, fun _ => Or.inr rfl⟩)
              | exact forall2_update_first _ _ _
                  (fun i => ⟨fun h => h, fun h => Or.inl h⟩)
                  (fun i => ⟨fun h => h, fun h => Or.inl h⟩)

theorem priority_order_inj {a b : CheckSeverity} (h : priority_order a = priority_order b) :
    a = b := by
  cases a <;> cases b <;> first | rfl | simp [priority_order] at h

theorem filter_orderedInsert_priority (p : CheckSeverity) (x : RemediationItem)
    (l : List RemediationItem) :
    (List.orderedInsert item_le x l).filter (fun i => i.priority == p) =
      if x.priority = p then x :: l.filter (fun i => i.priority == p)
      else l.filter (fun i => i.priority == p) := by
  induction l with
  | nil =>
      by_cases hx : x.priority = p
      · simp [List.orderedInsert, List.filter, hx]
      · have hxb : (x.priority == p) = false := beq_eq_false_iff_ne.mpr hx
        simp [List.orderedInsert, List.filter, hx, hxb]
  | cons b t ih =>
      unfold List.orderedInsert
      by_cases hle : item_le x b
      · rw [if_pos hle]
        by_cases hx : x.priority = p
        · simp [List.filter_cons, hx]
        · have hxb : (x.priority == p) = false := beq_eq_false_iff_ne.mpr hx
          simp [List.filter_cons, hx, hxb]
      · rw [if_neg hle]
        have hlt : priority_order b.priority < priority_order x.priority := by
          simpa [item_le, Nat.not_le] using hle
        by_cases hx : x.priority = p
        · have hb : b.priority ≠ p := by
            intro hbp
            rw [hbp, ← hx] at hlt
            exact Nat.lt_irrefl _ hlt
          have hbb : (b.priority == p) = false := beq_eq_false_iff_ne.mpr hb
          simp [List.filter_cons, hb, hbb, ih, hx]
        · have hxb : (x.priority == p) = false := beq_eq_false_iff_ne.mpr hx
          simp [List.filter_cons, ih, hx, hxb]

theorem filter_insertionSort_priority (p : CheckSeverity) (l : List RemediationItem) :
    (List.insertionSort item_le l).filter (fun i => i.priority == p) =
      l.filter (fun i => i.priority == p) := by
  induction l with
  | nil => rfl
  | cons a t ih =>
      show (List.orderedInsert item_le a (List.insertionSort item_le t)).filter
          (fun i => i.priority == p) = _
      rw [filter_orderedInsert_priority]
      by_cases ha : a.priority = p
      · simp [List.filter_cons, ha, ih]
      · simp [List.filter_cons, ha, ih]

/-- C9: the created remediation plan has exactly one item per `fail`-status
check (in check order, priority = the check's severity), the final item list
is a permutation of that list sorted so that priorities are descending
(`priority_order` non-decreasing), the sort is stable (the per-priority
sublists are preserved), and the plan status is `empty` iff there are zero
items, else `active`. -/
theorem claim_C9_plan_creation (audit_id : String) (result : AuditResult) :
    remediation_items_of result =
      (result.checks.filter fun c => c.status == CheckStatus.fail).map item_of_check ∧
    (∀ c : AuditCheck, (item_of_check c).priority = c.severity ∧
      (item_of_check c).check_name = c.name) ∧
    (create_remediation_plan audit_id result).items.Perm (remediation_items_of result) ∧
    List.Sorted item_le (create_remediation_plan audit_id result).items ∧
    (∀ p : CheckSeverity,
      (create_remediation_plan audit_id result).items.filter (fun i => i.priority == p) =
        (remediation_items_of result).filter (fun i => i.priority == p)) ∧
    ((create_remediation_plan audit_id result).status = "empty" ↔
      (create_remediation_plan audit_id result).items = []) ∧
    ((create_remediation_plan audit_id result).status = "active" ↔
      (create_remediation_plan audit_id result).items ≠ []) := by
  refine ⟨rfl, fun c => ⟨rfl, rfl⟩, ?_, ?_, ?_, ?_, ?_⟩
  · exact List.perm_insertionSort item_le (remediation_items_of result)
  · exact List.sorted_insertionSort item_le (remediation_items_of result)
  · intro p
    exact filter_insertionSort_priority p (remediation_items_of result)
  · cases hl : List.insertionSort item_le (remediation_items_of result) with
    | nil => simp [create_remediation_plan, hl]
    | cons a t => simp [create_remediation_plan, hl]
  · cases hl : List.insertionSort item_le (remediation_items_of result) with
    | nil => simp [create_remediation_plan, hl]
    | cons a t => simp [create_remediation_plan, hl]

theorem except_bind_ok {α β : Type} {e : Except String α} {f : α → Except String β} {b : β}
    (h : (e >>= f) = Except.ok b) : ∃ a, e = Except.ok a ∧ f a = Except.ok b := by
  cases e with
  | ok a => exact ⟨a, rfl, h⟩
  | error exc => simp [Bind.bind, Except.bind] at h

/-- C5 counterexample: `check_pattern_coverage` returns severity `high` when
the pattern query yields no records and `medium` when it yields one — the same
check function carries different severities on different inputs. -/
theorem claim_C5_fixed_severity_counterexample :
    (check_pattern_coverage ⟨fun _ _ _ _ => Except.ok []⟩).map AuditCheck.severity =
        Except.ok CheckSeverity.high ∧
    (check_pattern_coverage
        ⟨fun _ _ _ _ => Except.ok [[("sys_id", "p1")]]⟩).map AuditCheck.severity =
      Except.ok CheckSeverity.medium :=
  ⟨rfl, rfl⟩

/-- C5 (amended): every check function except `check_pattern_coverage` returns
a fixed severity on every input (orphan medium; stale high; duplicate high;
missing-field critical; stale-schedules high; reconciliation medium; license
critical; expired-hardware high; unassigned low), while
`check_pattern_coverage` returns `medium` when the active-pattern query yields
at least one record and `high` when it yields none. -/
theorem claim_C5_fixed_severity_amended :
    (∀ (client : ServiceNowClient) (ch : AuditCheck),
      check_orphan_compliance client = Except.ok ch → ch.severity = CheckSeverity.medium) ∧
    (∀ (client : ServiceNowClient) (ch : AuditCheck),
      check_stale_compliance client = Except.ok ch → ch.severity = CheckSeverity.high) ∧
    (∀ (client : ServiceNowClient) (ch : AuditCheck),
      check_duplicate_compliance client = Except.ok ch → ch.severity = CheckSeverity.high) ∧
    (∀ (client : ServiceNowClient) (ch : AuditCheck),
      check_missing_field_compliance client = Except.ok ch →
        ch.severity = CheckSeverity.critical) ∧
    (∀ (client : ServiceNowClient) (ch : AuditCheck),
      check_stale_schedules client = Except.ok ch → ch.severity = CheckSeverity.high) ∧
    (∀ (client : ServiceNowClient) (ch : AuditCheck),
      check_ci_reconciliation client = Except.ok ch → ch.severity = CheckSeverity.medium) ∧
    (∀ (client : ServiceNowClient) (ch : AuditCheck),
      check_license_overallocation client = Except.ok ch →
        ch.severity = CheckSeverity.critical) ∧
    (∀ (client : ServiceNowClient) (ch : AuditCheck),
      check_expired_hardware client = Except.ok ch → ch.severity = CheckSeverity.high) ∧
    (∀ (client : ServiceNowClient) (ch : AuditCheck),
      check_unassigned_assets client = Except.ok ch → ch.severity = CheckSeverity.low) ∧
    (∀ (client : ServiceNowClient) (ch : AuditCheck) (records : List SnRecord),
      client.get_records "sa_pattern" ["sys_id", "name", "active"] (some "active=true") 100 =
          Except.ok records →
      check_pattern_coverage client = Except.ok ch →
        ch.severity =
          (if records.length > 0 then CheckSeverity.medium else CheckSeverity.high)) := by
  refine ⟨?_, ?_, ?_, ?_, ?_, ?_, ?_, ?_, ?_, ?_⟩
  · intro client ch h
    unfold check_orphan_compliance at h
    obtain ⟨r1, h1, h⟩ := except_bind_ok h
    by_cases he : r1.isEmpty
    · rw [if_pos he] at h
      cases h
      rfl
    · rw [if_neg he] at h
      obtain ⟨y, hy, h⟩ := except_bind_ok h
      obtain ⟨r2, h2, h⟩ := except_bind_ok h
      cases h
      rfl
  · intro client ch h
    unfold check_stale_compliance at h
    obtain ⟨r1, h1, h⟩ := except_bind_ok h
    obtain ⟨r2, h2, h⟩ := except_bind_ok h
    cases h
    rfl
  · intro client ch h
    unfold check_duplicate_compliance at h
    obtain ⟨r1, h1, h⟩ := except_bind_ok h
    cases h
    rfl
  · intro client ch h
    unfold check_missing_field_compliance at h
    obtain ⟨r1, h1, h⟩ := except_bind_ok h
    obtain ⟨r2, h2, h⟩ := except_bind_ok h
    cases h
    rfl
  · intro client ch h
    unfold check_stale_schedules at h
    obtain ⟨r1, h1, h⟩ := except_bind_ok h
    cases h
    rfl
  · intro client ch h
    unfold check_ci_reconciliation at h
    obtain ⟨r1, h1, h⟩ := except_bind_ok h
    cases h
    rfl
  · intro client ch h
    unfold check_license_overallocation at h
    obtain ⟨r1, h1, h⟩ := except_bind_ok h
    cases h
    rfl
  · intro client ch h
    unfold check_expired_hardware at h
    obtain ⟨r1, h1, h⟩ := except_bind_ok h
    cases h
    rfl
  · intro client ch h
    unfold check_unassigned_assets at h
    obtain ⟨r1, h1, h⟩ := except_bind_ok h
    cases h
    rfl
  · intro client ch records hrec h
    unfold check_pattern_coverage at h
    obtain ⟨r1, h1, h⟩ := except_bind_ok h
    rw [hrec] at h1
    cases h1
    cases h
    rfl

/-- Witness for C5 (amended): the unassigned-assets check on a concrete client
returns its registered severity `low`. -/
theorem claim_C5_fixed_severity_amended_witness :
    (⟨"unassigned_assets", "Detect active assets with no assigned user", CheckSeverity.low,
        CheckStatus.pass, "0 active assets have no assigned user", 0, []⟩ :
      AuditCheck).severity = CheckSeverity.low :=
  claim_C5_fixed_severity_amended.2.2.2.2.2.2.2.2.1 ⟨fun _ _ _ _ => Except.ok []⟩
    ⟨"unassigned_assets", "Detect active assets with no assigned user", CheckSeverity.low,
      CheckStatus.pass, "0 active assets have no assigned user", 0, []⟩ rfl

/-- C10: with a non-empty severity filter, `run_cmdb_audit` executes exactly
the checks whose mapped severity equals the filter when at least one matches
(`medium` → orphan; `high` → stale and duplicate; `critical` → missing-field),
but when the filter matches none of the four checks (for example `low`) it
falls back to executing all four, identically to an unfiltered run. -/
theorem claim_C10_severity_filter_fallback :
    (∀ (client : ServiceNowClient) (s : String),
      s ≠ "" → s ≠ "medium" → s ≠ "high" → s ≠ "critical" →
        run_cmdb_audit client (some s) = run_cmdb_audit client none) ∧
    (∀ client : ServiceNowClient,
      (run_cmdb_audit client (some "medium")).checks =
        [run_check ⟨"<lambda>", check_orphan_compliance client⟩]) ∧
    (∀ client : ServiceNowClient,
      (run_cmdb_audit client (some "high")).checks =
        [run_check ⟨"<lambda>", check_stale_compliance client⟩,
         run_check ⟨"<lambda>", check_duplicate_compliance client⟩]) ∧
    (∀ client : ServiceNowClient,
      (run_cmdb_audit client (some "critical")).checks =
        [run_check ⟨"<lambda>", check_missing_field_compliance client⟩]) ∧
    (∀ client : ServiceNowClient,
      (run_cmdb_audit client none).checks = (cmdb_check_fns client).map run_check) := by
  refine ⟨?_, fun client => rfl, fun client => rfl, fun client => rfl, fun client => rfl⟩
  intro client s hs hmed hhigh hcrit
  have c1 : (cmdb_severity_map.lookup "cmdb_orphan_compliance" == some s) = false :=
    beq_eq_false_iff_ne.mpr fun he => hmed (Option.some.inj he).symm
  have c2 : (cmdb_severity_map.lookup "cmdb_stale_compliance" == some s) = false :=
    beq_eq_false_iff_ne.mpr fun he => hhigh (Option.some.inj he).symm
  have c3 : (cmdb_severity_map.lookup "cmdb_duplicate_compliance" == some s) = false :=
    beq_eq_false_iff_ne.mpr fun he => hhigh (Option.some.inj he).symm
  have c4 : (cmdb_severity_map.lookup "cmdb_missing_field_compliance" == some s) = false :=
    beq_eq_false_iff_ne.mpr fun he => hcrit (Option.some.inj he).symm
  have hnames : cmdb_severity_map.map Prod.fst =
      ["cmdb_orphan_compliance", "cmdb_stale_compliance", "cmdb_duplicate_compliance",
       "cmdb_missing_field_compliance"] := rfl
  unfold run_cmdb_audit
  dsimp only
  rw [if_neg hs]
  simp [cmdb_check_fns, hnames, List.zip, List.zipWith, List.filter, c1, c2, c3, c4]

/-- Witness for C10: the filter `low` matches no CMDB check, and the run
equals the unfiltered run. -/
theorem claim_C10_severity_filter_fallback_witness :
    run_cmdb_audit ⟨fun _ _ _ _ => Except.ok []⟩ (some "low") =
      run_cmdb_audit ⟨fun _ _ _ _ => Except.ok []⟩ none :=
  claim_C10_severity_filter_fallback.1 ⟨fun _ _ _ _ => Except.ok []⟩ "low"
    (by decide) (by decide) (by decide) (by decide)
